import Mathlib

/-!
# Verification of the fleet-telemetry-monitor scripts

Shallow embedding of the repository's three Python scripts:
`scripts/generate_data.py` (record generator and the CSV / JSON / log
writers), `scripts/benchmark_parser.py` (the six-field benchmark reader
and its CLI), and `scripts/generate_test_data.py`.

Modelling conventions:
* Python floats are modelled as exact rationals (ℚ); fixed-precision
  formatting rounds the rational scaled by a power of ten, abstracting
  IEEE-754 representation error and Python's round-half-even tie on the
  binary value to Mathlib's rounding of the exact rational.
* Ambient process-wide randomness (the random module) is modelled as
  explicit oracle streams, one per call site, indexed by loop iteration,
  with a validity predicate recording each call's contract
  (random.random() lands in [0,1); random.randint(a,b) is inclusive on
  both ends).
* The csv module's line encoding is modelled down to the character
  level for the writer (QUOTE_MINIMAL quoting); readers consume rows of
  fields, since csv.writer followed by csv.DictReader recovers the
  written field lists exactly.
-/

/-! ## Decimal digit printing and parsing -/

/-- The character of a single decimal digit value. -/
def digitChar (d : ℕ) : Char := Char.ofNat (48 + d)

/-- The digit value of a decimal digit character. -/
def charVal (c : Char) : ℕ := c.toNat - 48

/-- Whether a character is a decimal digit. -/
def isDigitC (c : Char) : Bool := 48 ≤ c.toNat && c.toNat ≤ 57

/-- Little-endian decimal digits by fuelled structural recursion, so
that concrete values reduce inside the kernel; digitsRevAux fuel n is
the digit list of n whenever n ≤ fuel. -/
def digitsRevAux : ℕ → ℕ → List ℕ
  | 0, _ => []
  | fuel + 1, n => if n = 0 then [] else n % 10 :: digitsRevAux fuel (n / 10)

/-- The little-endian decimal digits of n. -/
def digitsRev (n : ℕ) : List ℕ := digitsRevAux n n

/-- Decimal rendering of a natural number, as Python's str. -/
def printNat (n : ℕ) : List Char :=
  if n = 0 then ['0'] else (digitsRev n).reverse.map digitChar

/-- Decimal rendering of an integer, as Python's str. -/
def printInt (z : ℤ) : List Char :=
  if z < 0 then '-' :: printNat z.natAbs else printNat z.natAbs

/-- Parse a nonempty all-digit character list into a natural number. -/
def parseNat (cs : List Char) : Option ℕ :=
  if cs.isEmpty then none
  else if cs.all isDigitC then some (Nat.ofDigits 10 (cs.map charVal).reverse)
  else none

/-- Parse an optionally minus-signed digit string, as Python's int. -/
def parseInt (cs : List Char) : Option ℤ :=
  if cs.head? = some '-' then (parseNat cs.tail).map (fun (n : ℕ) => -(n : ℤ))
  else (parseNat cs).map (fun (n : ℕ) => (n : ℤ))

theorem charVal_digitChar {d : ℕ} (h : d < 10) : charVal (digitChar d) = d := by
  interval_cases d <;> decide

theorem isDigitC_digitChar {d : ℕ} (h : d < 10) : isDigitC (digitChar d) = true := by
  interval_cases d <;> decide

theorem isDigitC_ne_dot {c : Char} (h : isDigitC c = true) : c ≠ '.' := by
  rintro rfl; simp [isDigitC] at h

theorem isDigitC_ne_dash {c : Char} (h : isDigitC c = true) : c ≠ '-' := by
  rintro rfl; simp [isDigitC] at h

theorem digitsRevAux_eq {fuel n : ℕ} (h : n ≤ fuel) :
    digitsRevAux fuel n = Nat.digits 10 n := by
  induction fuel generalizing n with
  | zero =>
    have hn : n = 0 := by omega
    subst hn
    simp [digitsRevAux]
  | succ fuel ih =>
    by_cases hn : n = 0
    · subst hn; simp [digitsRevAux]
    · have hstep : digitsRevAux (fuel + 1) n = n % 10 :: digitsRevAux fuel (n / 10) := by
        simp [digitsRevAux, hn]
      rw [hstep, ih (by omega),
        Nat.digits_def' (by norm_num : (1:ℕ) < 10) (Nat.pos_of_ne_zero hn)]

theorem digitsRev_eq (n : ℕ) : digitsRev n = Nat.digits 10 n :=
  digitsRevAux_eq (le_refl n)

theorem printNat_all_digit (n : ℕ) : ∀ c ∈ printNat n, isDigitC c = true := by
  intro c hc
  unfold printNat at hc
  rw [digitsRev_eq] at hc
  by_cases h : n = 0
  · simp [h] at hc; subst hc; decide
  · simp [h, List.mem_map] at hc
    obtain ⟨d, hd, rfl⟩ := hc
    exact isDigitC_digitChar (Nat.digits_lt_base (by norm_num) hd)

theorem printNat_ne_nil (n : ℕ) : printNat n ≠ [] := by
  unfold printNat
  rw [digitsRev_eq]
  by_cases h : n = 0
  · simp [h]
  · simp [h, Nat.digits_ne_nil_iff_ne_zero.mpr h]

theorem parseNat_printNat (n : ℕ) : parseNat (printNat n) = some n := by
  by_cases h : n = 0
  · subst h; decide
  · have hall : (printNat n).all isDigitC = true := by
      rw [List.all_eq_true]; intro c hc; exact printNat_all_digit n c hc
    have hne : (printNat n).isEmpty = false := by
      cases hpn : printNat n with
      | nil => exact absurd hpn (printNat_ne_nil n)
      | cons a l => simp
    unfold parseNat
    rw [hne, hall]
    simp only [if_false, if_true, Bool.false_eq_true]
    congr 1
    unfold printNat
    rw [digitsRev_eq, if_neg h, List.map_map, List.map_reverse, List.reverse_reverse]
    have heq : (Nat.digits 10 n).map (charVal ∘ digitChar) = (Nat.digits 10 n).map id := by
      apply List.map_congr_left
      intro d hd
      simp [charVal_digitChar (Nat.digits_lt_base (by norm_num) hd)]
    rw [heq, List.map_id, Nat.ofDigits_digits]

theorem parseInt_cons_dash (cs : List Char) :
    parseInt ('-' :: cs) = (parseNat cs).map (fun (n : ℕ) => -(n : ℤ)) := by
  unfold parseInt
  rw [if_pos]
  · rfl
  · rfl

theorem parseInt_cons_digit (a : Char) (l : List Char) (ha : isDigitC a = true) :
    parseInt (a :: l) = (parseNat (a :: l)).map (fun (n : ℕ) => (n : ℤ)) := by
  unfold parseInt
  rw [if_neg]
  simp only [List.head?_cons, Option.some.injEq]
  exact fun hc => isDigitC_ne_dash ha hc

theorem parseInt_printNat (n : ℕ) : parseInt (printNat n) = some (n : ℤ) := by
  cases hpn : printNat n with
  | nil => exact absurd hpn (printNat_ne_nil n)
  | cons a l =>
    have ha : isDigitC a = true := by
      apply printNat_all_digit n; rw [hpn]; exact List.mem_cons_self a l
    rw [parseInt_cons_digit a l ha, ← hpn, parseNat_printNat]
    rfl

theorem parseInt_printInt (z : ℤ) : parseInt (printInt z) = some z := by
  unfold printInt
  by_cases h : z < 0
  · rw [if_pos h, parseInt_cons_dash, parseNat_printNat]
    have habs : -(z.natAbs : ℤ) = z := by omega
    rw [Option.map_some', habs]
  · rw [if_neg h, parseInt_printNat]
    congr 1
    omega

/-! ## Fixed-precision decimal formatting and float parsing -/

/-- The last d decimal digits of a scaled value, zero-padded on the left. -/
def fracDigits (d m : ℕ) : List Char :=
  List.replicate (d - (digitsRev m).length) '0' ++ (digitsRev m).reverse.map digitChar

/-- Fixed-point rendering of the rational q with d decimal digits,
modelling Python's format spec .df: the value scaled by 10^d is rounded
to an integer and printed with the decimal point before the last d
digits (ties are abstracted to Mathlib's round on the exact rational). -/
def formatFixed (q : ℚ) (d : ℕ) : List Char :=
  (if round (q * 10 ^ d) < 0 then ['-'] else []) ++
    printNat ((round (q * 10 ^ d)).natAbs / 10 ^ d) ++
    '.' :: fracDigits d ((round (q * 10 ^ d)).natAbs % 10 ^ d)

/-- The exact rational value denoted by the d-decimal rendering of q. -/
def roundTo (d : ℕ) (q : ℚ) : ℚ := (round (q * 10 ^ d) : ℚ) / 10 ^ d

/-- Parse an unsigned decimal numeral with an optional fractional part. -/
def parseUFrac (cs : List Char) : Option ℚ :=
  if (cs.dropWhile (fun c => c != '.')).isEmpty then
    (parseNat cs).map (fun (n : ℕ) => (n : ℚ))
  else
    (parseNat (cs.takeWhile (fun c => c != '.'))).bind (fun (a : ℕ) =>
      (parseNat ((cs.dropWhile (fun c => c != '.')).tail)).map (fun (b : ℕ) =>
        (a : ℚ) + (b : ℚ) / 10 ^ ((cs.dropWhile (fun c => c != '.')).tail).length))

/-- Parse an optionally minus-signed decimal numeral, as Python's float
behaves on the numerals this repository's writers produce. -/
def parseFloat (cs : List Char) : Option ℚ :=
  if cs.head? = some '-' then (parseUFrac cs.tail).map (fun x => -x)
  else parseUFrac cs

theorem takeWhile_append_cons {p : Char → Bool} (A : List Char) (b : Char) (B : List Char)
    (hA : ∀ a ∈ A, p a = true) (hb : p b = false) :
    (A ++ b :: B).takeWhile p = A := by
  induction A with
  | nil => simp [List.takeWhile_cons, hb]
  | cons a A ih =>
    simp only [List.cons_append, List.takeWhile_cons]
    rw [hA a (List.mem_cons_self a A)]
    simp [ih (fun x hx => hA x (List.mem_cons_of_mem a hx))]

theorem dropWhile_append_cons {p : Char → Bool} (A : List Char) (b : Char) (B : List Char)
    (hA : ∀ a ∈ A, p a = true) (hb : p b = false) :
    (A ++ b :: B).dropWhile p = b :: B := by
  induction A with
  | nil => simp [List.dropWhile_cons, hb]
  | cons a A ih =>
    simp only [List.cons_append, List.dropWhile_cons]
    rw [hA a (List.mem_cons_self a A)]
    simp [ih (fun x hx => hA x (List.mem_cons_of_mem a hx))]

theorem digits_length_le_of_lt_pow {m d : ℕ} (h : m < 10 ^ d) :
    (Nat.digits 10 m).length ≤ d := by
  induction d generalizing m with
  | zero =>
    interval_cases m
    simp
  | succ d ih =>
    by_cases hm : m = 0
    · simp [hm]
    · rw [Nat.digits_def' (by norm_num : (1:ℕ) < 10) (Nat.pos_of_ne_zero hm)]
      simp only [List.length_cons]
      have hdiv : m / 10 < 10 ^ d := by
        apply Nat.div_lt_of_lt_mul
        rw [pow_succ] at h
        omega
      have := ih hdiv
      omega

theorem ofDigits_replicate_zero (k : ℕ) : Nat.ofDigits 10 (List.replicate k 0) = 0 := by
  induction k with
  | zero => simp [Nat.ofDigits]
  | succ k ih => simp [List.replicate_succ, Nat.ofDigits_cons, ih]

theorem fracDigits_length {d m : ℕ} (h : m < 10 ^ d) : (fracDigits d m).length = d := by
  have hle := digits_length_le_of_lt_pow h
  unfold fracDigits
  rw [digitsRev_eq]
  simp only [List.length_append, List.length_replicate, List.length_map, List.length_reverse]
  omega

theorem fracDigits_all_digit (d m : ℕ) : ∀ c ∈ fracDigits d m, isDigitC c = true := by
  intro c hc
  unfold fracDigits at hc
  rw [digitsRev_eq] at hc
  rw [List.mem_append] at hc
  rcases hc with hc | hc
  · rw [List.eq_of_mem_replicate hc]; decide
  · simp only [List.mem_map, List.mem_reverse] at hc
    obtain ⟨x, hx, rfl⟩ := hc
    exact isDigitC_digitChar (Nat.digits_lt_base (by norm_num) hx)

theorem parseNat_fracDigits {d m : ℕ} (hd : 0 < d) (h : m < 10 ^ d) :
    parseNat (fracDigits d m) = some m := by
  have hlen := fracDigits_length h
  have hne : (fracDigits d m).isEmpty = false := by
    cases hf : fracDigits d m with
    | nil => rw [hf] at hlen; simp at hlen; omega
    | cons a l => simp
  have hall : (fracDigits d m).all isDigitC = true := by
    rw [List.all_eq_true]; exact fracDigits_all_digit d m
  unfold parseNat
  rw [hne, hall]
  simp only [Bool.false_eq_true, if_false, if_true]
  congr 1
  unfold fracDigits
  rw [digitsRev_eq, List.map_append, List.reverse_append, List.map_map, List.map_reverse,
    List.reverse_reverse, List.map_replicate]
  have hzero : charVal '0' = 0 := by decide
  rw [hzero, Nat.ofDigits_append]
  have heq : (Nat.digits 10 m).map (charVal ∘ digitChar) = (Nat.digits 10 m).map id := by
    apply List.map_congr_left
    intro x hx
    simp [charVal_digitChar (Nat.digits_lt_base (by norm_num) hx)]
  rw [List.reverse_replicate, heq, List.map_id, Nat.ofDigits_digits, ofDigits_replicate_zero]
  ring

theorem parseUFrac_format_body {d : ℕ} (hd : 0 < d) (a : ℕ) {m : ℕ} (hm : m < 10 ^ d) :
    parseUFrac (printNat a ++ '.' :: fracDigits d m) =
      some ((a : ℚ) + (m : ℚ) / 10 ^ d) := by
  have hWdot : ∀ c ∈ printNat a, (c != '.') = true := by
    intro c hc
    simp only [bne_iff_ne, ne_eq]
    exact isDigitC_ne_dot (printNat_all_digit a c hc)
  have hdot : (('.' : Char) != '.') = false := by decide
  have htake := takeWhile_append_cons (printNat a) '.' (fracDigits d m) hWdot hdot
  have hdrop := dropWhile_append_cons (printNat a) '.' (fracDigits d m) hWdot hdot
  unfold parseUFrac
  rw [hdrop, htake]
  simp only [List.isEmpty_cons, List.tail_cons, if_false, Bool.false_eq_true]
  rw [parseNat_printNat, parseNat_fracDigits hd hm, fracDigits_length hm]
  rfl

theorem parseFloat_cons_dash (cs : List Char) :
    parseFloat ('-' :: cs) = (parseUFrac cs).map (fun x => -x) := by
  unfold parseFloat
  rw [if_pos]
  · rfl
  · rfl

theorem parseFloat_cons_digit (a : Char) (l : List Char) (ha : isDigitC a = true) :
    parseFloat (a :: l) = parseUFrac (a :: l) := by
  unfold parseFloat
  rw [if_neg]
  simp only [List.head?_cons, Option.some.injEq]
  exact fun hc => isDigitC_ne_dash ha hc

theorem parseFloat_formatFixed (q : ℚ) {d : ℕ} (hd : 0 < d) :
    parseFloat (formatFixed q d) = some (roundTo d q) := by
  have hpow : (0:ℕ) < 10 ^ d := by positivity
  have hmod : (round (q * 10 ^ d)).natAbs % 10 ^ d < 10 ^ d := Nat.mod_lt _ hpow
  have hval : ((((round (q * 10 ^ d)).natAbs / 10 ^ d : ℕ) : ℚ) +
      (((round (q * 10 ^ d)).natAbs % 10 ^ d : ℕ) : ℚ) / 10 ^ d) =
      ((round (q * 10 ^ d)).natAbs : ℚ) / 10 ^ d := by
    have hq : (0:ℚ) < 10 ^ d := by positivity
    rw [eq_div_iff (ne_of_gt hq), add_mul, div_mul_cancel₀ _ (ne_of_gt hq)]
    have h2 : (round (q * 10 ^ d)).natAbs / 10 ^ d * 10 ^ d +
        (round (q * 10 ^ d)).natAbs % 10 ^ d = (round (q * 10 ^ d)).natAbs :=
      Nat.div_add_mod' _ _
    exact_mod_cast congrArg (fun (n : ℕ) => (n : ℚ)) h2
  by_cases hneg : round (q * 10 ^ d) < 0
  · have hform : formatFixed q d =
        '-' :: (printNat ((round (q * 10 ^ d)).natAbs / 10 ^ d) ++
          '.' :: fracDigits d ((round (q * 10 ^ d)).natAbs % 10 ^ d)) := by
      unfold formatFixed
      rw [if_pos hneg]
      rfl
    rw [hform, parseFloat_cons_dash, parseUFrac_format_body hd _ hmod, hval,
      Option.map_some']
    unfold roundTo
    congr 1
    rw [Int.cast_natAbs, abs_of_neg hneg]
    push_cast
    ring
  · have hform : formatFixed q d =
        printNat ((round (q * 10 ^ d)).natAbs / 10 ^ d) ++
          '.' :: fracDigits d ((round (q * 10 ^ d)).natAbs % 10 ^ d) := by
      unfold formatFixed
      rw [if_neg hneg]
      rfl
    cases hpn : printNat ((round (q * 10 ^ d)).natAbs / 10 ^ d) with
    | nil => exact absurd hpn (printNat_ne_nil _)
    | cons c l =>
      have hc : isDigitC c = true := by
        apply printNat_all_digit
        rw [hpn]
        exact List.mem_cons_self c l
      have hform2 : formatFixed q d = c ::
          (l ++ '.' :: fracDigits d ((round (q * 10 ^ d)).natAbs % 10 ^ d)) := by
        rw [hform, hpn]
        rfl
      rw [hform2, parseFloat_cons_digit c _ hc, ← List.cons_append, ← hpn,
        parseUFrac_format_body hd _ hmod, hval]
      unfold roundTo
      congr 1
      rw [Int.cast_natAbs, abs_of_nonneg (not_lt.mp hneg)]

/-! ## Telemetry data model and generator (scripts/generate_data.py) -/

/-- One telemetry record as built by generate_telemetry_record. The
timestamp is the instant in whole seconds; it is rendered textually
only when written. -/
structure TelemetryRecord where
  vehicle_id : String
  timestamp : ℤ
  latitude : ℚ
  longitude : ℚ
  speed : ℚ
  heading : ℚ
  engine_rpm : ℕ
  fuel_level : ℚ
  odometer_km : ℚ
  engine_temp : ℚ
  battery_volt : ℚ
  diagnostic_code : String
deriving DecidableEq

/-- The DIAGNOSTIC_CODES pool: eight empty entries then six OBD-II codes. -/
def DIAGNOSTIC_CODES : List String :=
  ["", "", "", "", "", "", "", "", "P0420", "P0171", "P0300", "P0442", "P0128", "P0455"]

/-- Explicit oracles for the random module's call sites in the generation
loop, one stream per call site indexed by loop iteration; initOdoR is the
randint(0, 100000) starting-odometer draw for each vehicle key. -/
structure Rands where
  latR : ℕ → ℚ
  lonR : ℕ → ℚ
  speedR : ℕ → ℚ
  headR : ℕ → ℚ
  rpmR : ℕ → ℕ
  fuelR : ℕ → ℚ
  odoJitR : ℕ → ℚ
  tempR : ℕ → ℚ
  battR : ℕ → ℚ
  diagR : ℕ → ℕ
  vehR : ℕ → ℕ
  driftR : ℕ → ℚ
  initOdoR : String → ℕ

/-- The contract of each random call: random.random() lands in [0, 1),
and random.randint(a, b) is inclusive on both ends. -/
def Rands.Valid (R : Rands) : Prop :=
  (∀ i, 0 ≤ R.latR i ∧ R.latR i < 1) ∧
  (∀ i, 0 ≤ R.lonR i ∧ R.lonR i < 1) ∧
  (∀ i, 0 ≤ R.speedR i ∧ R.speedR i < 1) ∧
  (∀ i, 0 ≤ R.headR i ∧ R.headR i < 1) ∧
  (∀ i, R.rpmR i ≤ 5200) ∧
  (∀ i, 0 ≤ R.fuelR i ∧ R.fuelR i < 1) ∧
  (∀ i, 0 ≤ R.odoJitR i ∧ R.odoJitR i < 1) ∧
  (∀ i, 0 ≤ R.tempR i ∧ R.tempR i < 1) ∧
  (∀ i, 0 ≤ R.battR i ∧ R.battR i < 1) ∧
  (∀ i, 0 ≤ R.driftR i ∧ R.driftR i < 1) ∧
  (∀ v, R.initOdoR v ≤ 100000)

/-- generate_telemetry_record (generate_data.py, lines 28-43), with the
record's ten random draws taken from the oracles at iteration i. -/
def generate_telemetry_record (vid : String) (ts : ℤ) (base_lat base_lon : ℚ)
    (odometer : ℚ) (R : Rands) (i : ℕ) : TelemetryRecord :=
  { vehicle_id := vid
    timestamp := ts
    latitude := base_lat + (R.latR i - 1/2) * (1/100)
    longitude := base_lon + (R.lonR i - 1/2) * (1/100)
    speed := R.speedR i * 120
    heading := R.headR i * 360
    engine_rpm := 800 + R.rpmR i
    fuel_level := 15 + R.fuelR i * 85
    odometer_km := odometer + R.odoJitR i * (1/2)
    engine_temp := 75 + R.tempR i * 35
    battery_volt := 23/2 + R.battR i * (5/2)
    diagnostic_code := DIAGNOSTIC_CODES.getD (R.diagR i % 14) "" }

/-- Python's f-string VEH-{i:03d}: the index zero-padded to width 3. -/
def vehName (i : ℕ) : String :=
  "VEH-" ++ String.mk (List.replicate (3 - (printNat i).length) '0' ++ printNat i)

/-- The pre-allocated vehicle pool, for i in range(1, numVehicles + 1). -/
def vehiclesList (numVehicles : ℕ) : List String :=
  (List.range numVehicles).map (fun k => vehName (k + 1))

/-- The only failure mode of the generation loop: random.choice on an
empty vehicle pool raises IndexError. -/
inductive GenError where
  | indexError
deriving DecidableEq

/-- The starting odometer mapping, 50000 + randint(0, 100000) per vehicle. -/
def initOdos (R : Rands) : String → ℚ := fun v => 50000 + (R.initOdoR v : ℚ)

/-- random.choice(vehicles) at loop iteration i: a uniformly drawn
element of the pre-allocated pool (guarded by the emptiness check at
the use site, since choice on an empty pool raises). -/
def chosenVid (R : Rands) (numV i : ℕ) : String :=
  (vehiclesList numV).getD (R.vehR i % numV) ""

/-- The odometer bump odometers[vehicle] += random.random() * 0.02 at
loop iteration i, as a functional update of the odometer mapping. -/
def stepOdos (R : Rands) (numV i : ℕ) (odos : String → ℚ) : String → ℚ :=
  fun u => if u = chosenVid R numV i then odos u + R.driftR i * (1/50) else odos u

/-- The generation loop shared verbatim by generate_csv, generate_json
and generate_log (generate_data.py, lines 63-72): each iteration chooses
a vehicle uniformly from the pool, bumps that vehicle's odometer by
random()*0.02, and emits one record built on the bumped value. Recursion
is over the remaining iteration count; i is the absolute loop index. -/
def genAux (R : Rands) (numV : ℕ) (base_lat base_lon : ℚ) (ts0 : ℤ) :
    ℕ → ℕ → (String → ℚ) → Except GenError (List TelemetryRecord)
  | 0, _, _ => Except.ok []
  | fuel + 1, i, odos =>
    if numV = 0 then Except.error GenError.indexError
    else
      (genAux R numV base_lat base_lon ts0 fuel (i + 1) (stepOdos R numV i odos)).map
        (fun l => generate_telemetry_record (chosenVid R numV i) (ts0 + i) base_lat
          base_lon (stepOdos R numV i odos (chosenVid R numV i)) R i :: l)

/-- The record sequence produced by generate_csv (generate_data.py,
lines 46-91); generate_json and generate_log run the identical loop.
Counts are the script's integer arguments: range(num_records) is empty
for a negative count, and range(1, num_vehicles + 1) is empty for a
non-positive vehicle count. Base location is Orlando, FL. -/
def generate_csv_records (numRecords numVehicles ts0 : ℤ) (R : Rands) :
    Except GenError (List TelemetryRecord) :=
  genAux R numVehicles.toNat (285383/10000) (-813792/10000) ts0 numRecords.toNat 0 (initOdos R)

/-! ## Delimited-table (CSV) writer -/

/-- The header row written by generate_csv (lines 57-61), naming the
twelve fields in the data-model order. -/
def csvHeader : List String :=
  ["vehicle_id", "timestamp", "latitude", "longitude", "speed",
   "heading", "engine_rpm", "fuel_level", "odometer_km",
   "engine_temp", "battery_volt", "diagnostic_code"]

/-- String form of the fixed-precision rendering. -/
def formatFixedStr (q : ℚ) (d : ℕ) : String := String.mk (formatFixed q d)

/-- String form of the integer rendering. -/
def printIntStr (z : ℤ) : String := String.mk (printInt z)

/-- String form of the natural rendering. -/
def printNatStr (n : ℕ) : String := String.mk (printNat n)

/-- The field list generate_csv hands to csv.writer.writerow for one
record (lines 74-87): latitude and longitude with 6 decimals, the other
floats with 2, engine_rpm as a plain integer, strings as-is. The
ISO-8601 timestamp text is abstracted to the decimal rendering of the
instant's second count (injective and free of delimiter characters, as
isoformat output is). -/
def recordToRow (r : TelemetryRecord) : List String :=
  [r.vehicle_id, printIntStr r.timestamp,
   formatFixedStr r.latitude 6, formatFixedStr r.longitude 6,
   formatFixedStr r.speed 2, formatFixedStr r.heading 2,
   printNatStr r.engine_rpm, formatFixedStr r.fuel_level 2,
   formatFixedStr r.odometer_km 2, formatFixedStr r.engine_temp 2,
   formatFixedStr r.battery_volt 2, r.diagnostic_code]

/-- Whether csv.writer (QUOTE_MINIMAL, the default used here) must quote
a field: it holds the delimiter, the quote character, or a line break. -/
def needsQuote (s : String) : Bool :=
  s.toList.any (fun c => c == ',' || c == '"' || c == '\n' || c == '\r')

/-- csv.writer's minimal field encoding: quote the field and double the
inner quote characters when quoting is required, else emit it as-is. -/
def encodeField (s : String) : String :=
  if needsQuote s then
    "\"" ++ String.mk ((s.toList.map (fun c => if c == '"' then ['"', '"'] else [c])).flatten) ++ "\""
  else s

/-- One physical CSV line: encoded fields joined by the comma delimiter. -/
def renderRow (row : List String) : String :=
  String.intercalate "," (row.map encodeField)

/-- The CSV file as lines: the header line, then one line per record. -/
def csvLines (records : List TelemetryRecord) : List String :=
  renderRow csvHeader :: records.map (fun r => renderRow (recordToRow r))

/-- generate_csv's whole file content as lines. -/
def generate_csv_lines (numRecords numVehicles ts0 : ℤ) (R : Rands) :
    Except GenError (List String) :=
  (generate_csv_records numRecords numVehicles ts0 R).map csvLines

/-! ## Structured-document (JSON) and log writers -/

/-- JSON values, for the shape of the structured-document output. -/
inductive JsonVal where
  | str (s : String)
  | num (q : ℚ)
  | int (z : ℤ)
  | arr (elems : List JsonVal)
  | obj (fields : List (String × JsonVal))

/-- One record as the JSON object generate_json dumps: field names as
keys, numeric fields as native unrounded numbers. -/
def recordToJson (r : TelemetryRecord) : JsonVal :=
  JsonVal.obj
    [("vehicle_id", JsonVal.str r.vehicle_id),
     ("timestamp", JsonVal.str (printIntStr r.timestamp)),
     ("latitude", JsonVal.num r.latitude), ("longitude", JsonVal.num r.longitude),
     ("speed", JsonVal.num r.speed), ("heading", JsonVal.num r.heading),
     ("engine_rpm", JsonVal.int (r.engine_rpm : ℤ)),
     ("fuel_level", JsonVal.num r.fuel_level),
     ("odometer_km", JsonVal.num r.odometer_km),
     ("engine_temp", JsonVal.num r.engine_temp),
     ("battery_volt", JsonVal.num r.battery_volt),
     ("diagnostic_code", JsonVal.str r.diagnostic_code)]

/-- generate_json's document (lines 94-119): json.dump of the full
accumulated record list, one array of record objects; the generation
loop is the one shared with generate_csv. -/
def generate_json_doc (numRecords numVehicles ts0 : ℤ) (R : Rands) :
    Except GenError JsonVal :=
  (generate_csv_records numRecords numVehicles ts0 R).map
    (fun l => JsonVal.arr (l.map recordToJson))

/-- The two leading comment lines of generate_log (lines 132-133). -/
def logHeader : List String :=
  ["# Fleet Telemetry Log",
   "# Format: timestamp|vehicle_id|lat,lon|speed|rpm|fuel|odo|temp|batt|diag"]

/-- One pipe-delimited log line (lines 144-148). -/
def logLine (r : TelemetryRecord) : String :=
  printIntStr r.timestamp ++ "|" ++ r.vehicle_id ++ "|" ++
    formatFixedStr r.latitude 6 ++ "," ++ formatFixedStr r.longitude 6 ++ "|" ++
    formatFixedStr r.speed 2 ++ "|" ++ printNatStr r.engine_rpm ++ "|" ++
    formatFixedStr r.fuel_level 2 ++ "|" ++ formatFixedStr r.odometer_km 2 ++ "|" ++
    formatFixedStr r.engine_temp 2 ++ "|" ++ formatFixedStr r.battery_volt 2 ++ "|" ++
    r.diagnostic_code

/-- generate_log's whole file content as lines (lines 122-153). -/
def generate_log_lines (numRecords numVehicles ts0 : ℤ) (R : Rands) :
    Except GenError (List String) :=
  (generate_csv_records numRecords numVehicles ts0 R).map
    (fun l => logHeader ++ l.map logLine)

/-! ## Readers (scripts/benchmark_parser.py and the in-file benchmark) -/

/-- The typed record parse_telemetry builds per row (benchmark_parser.py,
lines 14-21): vehicle_id is kept exactly as the DictReader cell (None,
i.e. none, when the row is short); the five numeric columns are
converted. -/
structure BenchRecord where
  vehicle_id : Option String
  latitude : ℚ
  longitude : ℚ
  speed : ℚ
  engine_rpm : ℤ
  fuel_level : ℚ
deriving DecidableEq

/-- The DictReader cell for a named column, converted by float():
a column name absent from the header is a KeyError; float() of a
missing cell (short row, DictReader restval None) or of malformed text
raises. Every failure is none. -/
def cellFloat (header row : List String) (name : String) : Option ℚ :=
  (header.indexOf? name).bind (fun i => (row[i]?).bind (fun s => parseFloat s.toList))

/-- The DictReader cell for a named column, converted by int(). -/
def cellInt (header row : List String) (name : String) : Option ℤ :=
  (header.indexOf? name).bind (fun i => (row[i]?).bind (fun s => parseInt s.toList))

/-- The DictReader cell for a named column kept as-is: fails only when
the column name is absent from the header; a short row reads as None
(the inner none). -/
def cellStr (header row : List String) (name : String) : Option (Option String) :=
  (header.indexOf? name).map (fun i => row[i]?)

/-- One row of parse_telemetry (benchmark_parser.py, lines 14-21): look
up and convert the six expected columns; any KeyError / TypeError /
ValueError aborts the row. -/
def parseRowBench (header row : List String) : Option BenchRecord := do
  let v ← cellStr header row "vehicle_id"
  let la ← cellFloat header row "latitude"
  let lo ← cellFloat header row "longitude"
  let sp ← cellFloat header row "speed"
  let rp ← cellInt header row "engine_rpm"
  let fu ← cellFloat header row "fuel_level"
  some { vehicle_id := v, latitude := la, longitude := lo, speed := sp,
         engine_rpm := rp, fuel_level := fu }

/-- parse_telemetry's row loop over the data rows (csv.DictReader skips
blank rows): any aborting row aborts the whole parse, no partial
result. -/
def parseAllBench (header : List String) : List (List String) → Option (List BenchRecord)
  | [] => some []
  | row :: rest =>
    if row = [] then parseAllBench header rest
    else do
      let r ← parseRowBench header row
      let rs ← parseAllBench header rest
      some (r :: rs)

/-- The typed record of benchmark_python_parser's row parse
(generate_data.py, lines 172-185): all twelve columns, the three string
columns kept exactly as the DictReader cells. -/
structure FullRecord where
  vehicle_id : Option String
  timestamp : Option String
  latitude : ℚ
  longitude : ℚ
  speed : ℚ
  heading : ℚ
  engine_rpm : ℤ
  fuel_level : ℚ
  odometer_km : ℚ
  engine_temp : ℚ
  battery_volt : ℚ
  diagnostic_code : Option String
deriving DecidableEq

/-- One row of benchmark_python_parser's reader (generate_data.py,
lines 172-185), converting every column of the delimited table. -/
def parseRowFull (header row : List String) : Option FullRecord := do
  let v ← cellStr header row "vehicle_id"
  let ts ← cellStr header row "timestamp"
  let la ← cellFloat header row "latitude"
  let lo ← cellFloat header row "longitude"
  let sp ← cellFloat header row "speed"
  let he ← cellFloat header row "heading"
  let rp ← cellInt header row "engine_rpm"
  let fu ← cellFloat header row "fuel_level"
  let od ← cellFloat header row "odometer_km"
  let te ← cellFloat header row "engine_temp"
  let ba ← cellFloat header row "battery_volt"
  let di ← cellStr header row "diagnostic_code"
  some { vehicle_id := v, timestamp := ts, latitude := la,
         longitude := lo, speed := sp, heading := he, engine_rpm := rp,
         fuel_level := fu, odometer_km := od, engine_temp := te,
         battery_volt := ba, diagnostic_code := di }

/-- benchmark_python_parser's row loop, aborting on any failing row. -/
def parseAllFull (header : List String) : List (List String) → Option (List FullRecord)
  | [] => some []
  | row :: rest =>
    if row = [] then parseAllFull header rest
    else do
      let r ← parseRowFull header row
      let rs ← parseAllFull header rest
      some (r :: rs)

/-! ## Benchmark result object and CLI (benchmark_parser.py) -/

/-- records_per_sec as parse_telemetry computes it: division only under
the elapsed_ms > 0 guard, truncated to int (the value is non-negative,
so truncation is the floor), else 0. -/
def recordsPerSec (n : ℕ) (elapsedMs : ℚ) : ℤ :=
  if 0 < elapsedMs then ⌊(n : ℚ) / (elapsedMs / 1000)⌋ else 0

/-- The JSON object parse_telemetry returns (lines 27-32), with the
measured wall-clock milliseconds as a parameter. -/
def benchResultObj (n : ℕ) (elapsedMs : ℚ) : List (String × JsonVal) :=
  [("parser", JsonVal.str "Python"),
   ("records_parsed", JsonVal.int (n : ℤ)),
   ("time_ms", JsonVal.num (roundTo 2 elapsedMs)),
   ("records_per_sec", JsonVal.int (recordsPerSec n elapsedMs))]

/-- The __main__ block of benchmark_parser.py (lines 34-40): with no
file argument print the error object and exit 1; otherwise parse the
file's rows and print the result object, exiting normally. An abort
inside parse_telemetry propagates as an uncaught exception (none). -/
def cliMain (argv : List String) (header : List String) (rows : List (List String))
    (elapsedMs : ℚ) : Option (List (String × JsonVal) × ℕ) :=
  if argv.length < 2 then some ([("error", JsonVal.str "No file provided")], 1)
  else (parseAllBench header rows).map
    (fun recs => (benchResultObj recs.length elapsedMs, 0))

/-! ## Observers used to state the claims -/

/-- The record list of a generation result (empty on error). -/
def recsOf (e : Except GenError (List TelemetryRecord)) : List TelemetryRecord :=
  match e with
  | Except.ok l => l
  | Except.error _ => []

/-- Whether generation succeeded. -/
def genOk (e : Except GenError (List TelemetryRecord)) : Prop :=
  match e with
  | Except.ok _ => True
  | Except.error _ => False

/-- The emitted odometer readings of the records carrying a given
vehicle_id, in emission order. -/
def odosFor (vid : String) (l : List TelemetryRecord) : List ℚ :=
  (l.filter (fun r => r.vehicle_id == vid)).map (fun r => r.odometer_km)

/-! ## Generation-loop lemmas -/

/-- The all-default record, used only as the getD fallback. -/
def blankRecord : TelemetryRecord :=
  { vehicle_id := "", timestamp := 0, latitude := 0, longitude := 0, speed := 0,
    heading := 0, engine_rpm := 0, fuel_level := 0, odometer_km := 0,
    engine_temp := 0, battery_volt := 0, diagnostic_code := "" }

theorem genAux_succ (R : Rands) {numV : ℕ} (blat blon : ℚ) (ts0 : ℤ) (fuel i : ℕ)
    (odos : String → ℚ) (hv : numV ≠ 0) :
    genAux R numV blat blon ts0 (fuel + 1) i odos =
      (genAux R numV blat blon ts0 fuel (i + 1) (stepOdos R numV i odos)).map
        (fun l => generate_telemetry_record (chosenVid R numV i) (ts0 + i) blat
          blon (stepOdos R numV i odos (chosenVid R numV i)) R i :: l) := by
  conv_lhs => rw [genAux]
  rw [if_neg hv]

theorem odosFor_cons (vid : String) (r : TelemetryRecord) (l : List TelemetryRecord) :
    odosFor vid (r :: l) =
      if r.vehicle_id == vid then r.odometer_km :: odosFor vid l else odosFor vid l := by
  unfold odosFor
  rw [List.filter_cons]
  split <;> simp

theorem genAux_ok_shape (R : Rands) (numV : ℕ) (blat blon : ℚ) (ts0 : ℤ) :
    ∀ (fuel i : ℕ) (odos : String → ℚ) (l : List TelemetryRecord),
      genAux R numV blat blon ts0 fuel i odos = Except.ok l →
      l.length = fuel ∧
        ∀ k, k < l.length → (l.getD k blankRecord).timestamp = ts0 + (i + k : ℕ) := by
  intro fuel
  induction fuel with
  | zero =>
    intro i odos l h
    have hl : l = [] := by
      have : Except.ok (ε := GenError) [] = Except.ok l := h
      exact (Except.ok.inj this).symm
    subst hl
    exact ⟨rfl, by intro k hk; simp at hk⟩
  | succ fuel ih =>
    intro i odos l h
    by_cases hv : numV = 0
    · subst hv
      unfold genAux at h
      rw [if_pos rfl] at h
      exact absurd h (by simp)
    · rw [genAux_succ R blat blon ts0 fuel i odos hv] at h
      cases hg : genAux R numV blat blon ts0 fuel (i + 1) (stepOdos R numV i odos) with
      | error e => rw [hg] at h; simp [Except.map] at h
      | ok l' =>
        rw [hg] at h
        simp only [Except.map] at h
        have hl : generate_telemetry_record (chosenVid R numV i) (ts0 + i) blat
            blon (stepOdos R numV i odos (chosenVid R numV i)) R i :: l' = l :=
          Except.ok.inj h
        obtain ⟨hlen, hts⟩ := ih (i + 1) (stepOdos R numV i odos) l' hg
        subst hl
        constructor
        · simp [hlen]
        · intro k hk
          cases k with
          | zero =>
            simp [generate_telemetry_record]
          | succ k =>
            simp only [List.getD_cons_succ]
            have hk' : k < l'.length := by simp at hk; omega
            rw [hts k hk']
            push_cast
            ring

theorem genAux_rpm_bounds (R : Rands) (hR : R.Valid) (numV : ℕ) (blat blon : ℚ)
    (ts0 : ℤ) :
    ∀ (fuel i : ℕ) (odos : String → ℚ) (l : List TelemetryRecord),
      genAux R numV blat blon ts0 fuel i odos = Except.ok l →
      ∀ r ∈ l, 800 ≤ r.engine_rpm ∧ r.engine_rpm ≤ 6000 := by
  obtain ⟨-, -, -, -, hrpm, -⟩ := hR
  intro fuel
  induction fuel with
  | zero =>
    intro i odos l h r hr
    have hl : l = [] := (Except.ok.inj (h : Except.ok (ε := GenError) [] = Except.ok l)).symm
    subst hl
    simp at hr
  | succ fuel ih =>
    intro i odos l h r hr
    by_cases hv : numV = 0
    · subst hv
      unfold genAux at h
      rw [if_pos rfl] at h
      exact absurd h (by simp)
    · rw [genAux_succ R blat blon ts0 fuel i odos hv] at h
      cases hg : genAux R numV blat blon ts0 fuel (i + 1) (stepOdos R numV i odos) with
      | error e => rw [hg] at h; simp [Except.map] at h
      | ok l' =>
        rw [hg] at h
        simp only [Except.map] at h
        have hl : generate_telemetry_record (chosenVid R numV i) (ts0 + i) blat
            blon (stepOdos R numV i odos (chosenVid R numV i)) R i :: l' = l :=
          Except.ok.inj h
        subst hl
        rcases List.mem_cons.mp hr with hr | hr
        · subst hr
          have := hrpm i
          simp only [generate_telemetry_record]
          omega
        · exact ih (i + 1) (stepOdos R numV i odos) l' hg r hr

theorem genAux_odo_lb (R : Rands) (hR : R.Valid) (numV : ℕ) (blat blon : ℚ) (ts0 : ℤ) :
    ∀ (fuel i : ℕ) (odos : String → ℚ) (l : List TelemetryRecord),
      genAux R numV blat blon ts0 fuel i odos = Except.ok l →
      ∀ (vid : String) (x : ℚ), x ∈ odosFor vid l → odos vid ≤ x := by
  obtain ⟨-, -, -, -, -, -, hjit, -, -, hdrift, -⟩ := hR
  intro fuel
  induction fuel with
  | zero =>
    intro i odos l h vid x hx
    have hl : l = [] := (Except.ok.inj (h : Except.ok (ε := GenError) [] = Except.ok l)).symm
    subst hl
    simp [odosFor] at hx
  | succ fuel ih =>
    intro i odos l h vid x hx
    by_cases hv : numV = 0
    · subst hv; unfold genAux at h; rw [if_pos rfl] at h; exact absurd h (by simp)
    · rw [genAux_succ R blat blon ts0 fuel i odos hv] at h
      cases hg : genAux R numV blat blon ts0 fuel (i + 1) (stepOdos R numV i odos) with
      | error e => rw [hg] at h; simp [Except.map] at h
      | ok l' =>
        rw [hg] at h
        simp only [Except.map] at h
        have hl := Except.ok.inj h
        subst hl
        have hstep : odos vid ≤ stepOdos R numV i odos vid := by
          unfold stepOdos
          split
          · have h0 : 0 ≤ R.driftR i * (1/50) :=
              mul_nonneg (hdrift i).1 (by norm_num)
            linarith
          · exact le_refl _
        rw [odosFor_cons] at hx
        by_cases hb : (generate_telemetry_record (chosenVid R numV i) (ts0 + i) blat
            blon (stepOdos R numV i odos (chosenVid R numV i)) R i).vehicle_id == vid
        · rw [if_pos hb] at hx
          have hcv : chosenVid R numV i = vid := by
            have : (generate_telemetry_record (chosenVid R numV i) (ts0 + i) blat
                blon (stepOdos R numV i odos (chosenVid R numV i)) R i).vehicle_id =
                chosenVid R numV i := rfl
            rw [this] at hb
            exact eq_of_beq hb
          rcases List.mem_cons.mp hx with hx | hx
          · have hodo : (generate_telemetry_record (chosenVid R numV i) (ts0 + i) blat
                blon (stepOdos R numV i odos (chosenVid R numV i)) R i).odometer_km =
                stepOdos R numV i odos (chosenVid R numV i) + R.odoJitR i * (1/2) := rfl
            rw [hx, hodo, hcv]
            have h0 : 0 ≤ R.odoJitR i * (1/2) :=
              mul_nonneg (hjit i).1 (by norm_num)
            linarith
          · exact le_trans hstep (ih (i + 1) (stepOdos R numV i odos) l' hg vid x hx)
        · rw [if_neg hb] at hx
          exact le_trans hstep (ih (i + 1) (stepOdos R numV i odos) l' hg vid x hx)

theorem genAux_odo_pairwise (R : Rands) (hR : R.Valid) (numV : ℕ) (blat blon : ℚ)
    (ts0 : ℤ) :
    ∀ (fuel i : ℕ) (odos : String → ℚ) (l : List TelemetryRecord),
      genAux R numV blat blon ts0 fuel i odos = Except.ok l →
      ∀ vid, List.Pairwise (fun a b => a - 1/2 < b) (odosFor vid l) := by
  have hlb := genAux_odo_lb R hR numV blat blon ts0
  obtain ⟨-, -, -, -, -, -, hjit, -, -, hdrift, -⟩ := hR
  intro fuel
  induction fuel with
  | zero =>
    intro i odos l h vid
    have hl : l = [] := (Except.ok.inj (h : Except.ok (ε := GenError) [] = Except.ok l)).symm
    subst hl
    simp [odosFor]
  | succ fuel ih =>
    intro i odos l h vid
    by_cases hv : numV = 0
    · subst hv; unfold genAux at h; rw [if_pos rfl] at h; exact absurd h (by simp)
    · rw [genAux_succ R blat blon ts0 fuel i odos hv] at h
      cases hg : genAux R numV blat blon ts0 fuel (i + 1) (stepOdos R numV i odos) with
      | error e => rw [hg] at h; simp [Except.map] at h
      | ok l' =>
        rw [hg] at h
        simp only [Except.map] at h
        have hl := Except.ok.inj h
        subst hl
        rw [odosFor_cons]
        by_cases hb : (generate_telemetry_record (chosenVid R numV i) (ts0 + i) blat
            blon (stepOdos R numV i odos (chosenVid R numV i)) R i).vehicle_id == vid
        · rw [if_pos hb]
          constructor
          · intro x hx
            have hcv : chosenVid R numV i = vid := by
              have : (generate_telemetry_record (chosenVid R numV i) (ts0 + i) blat
                  blon (stepOdos R numV i odos (chosenVid R numV i)) R i).vehicle_id =
                  chosenVid R numV i := rfl
              rw [this] at hb
              exact eq_of_beq hb
            have hxlb := hlb fuel (i + 1) (stepOdos R numV i odos) l' hg vid x hx
            have hodo : (generate_telemetry_record (chosenVid R numV i) (ts0 + i) blat
                blon (stepOdos R numV i odos (chosenVid R numV i)) R i).odometer_km =
                stepOdos R numV i odos (chosenVid R numV i) + R.odoJitR i * (1/2) := rfl
            rw [hodo, hcv]
            have hjit2 : R.odoJitR i * (1/2) < 1/2 := by
              have := (hjit i).2
              linarith
            linarith
          · exact ih (i + 1) (stepOdos R numV i odos) l' hg vid
        · rw [if_neg hb]
          exact ih (i + 1) (stepOdos R numV i odos) l' hg vid

/-! ## Concrete oracle streams for witnesses and counterexamples -/

/-- A concrete valid oracle assignment: every float draw is 0 except the
odometer jitter, which is 0.9 on iteration 0 and 0 afterwards; the rpm
draw is 5200, the maximal randint(0, 5200) value. -/
def exRands : Rands :=
  { latR := fun _ => 0, lonR := fun _ => 0, speedR := fun _ => 0, headR := fun _ => 0,
    rpmR := fun _ => 5200, fuelR := fun _ => 0,
    odoJitR := fun i => if i = 0 then 9/10 else 0,
    tempR := fun _ => 0, battR := fun _ => 0, diagR := fun _ => 0, vehR := fun _ => 0,
    driftR := fun _ => 0, initOdoR := fun _ => 0 }


theorem exRands_valid : exRands.Valid := by
  refine ⟨fun i => by norm_num [exRands], fun i => by norm_num [exRands],
    fun i => by norm_num [exRands], fun i => by norm_num [exRands],
    fun i => by norm_num [exRands], fun i => by norm_num [exRands],
    fun i => ?_, fun i => by norm_num [exRands],
    fun i => by norm_num [exRands], fun i => by norm_num [exRands],
    fun v => by norm_num [exRands]⟩
  simp only [exRands]
  split_ifs <;> norm_num

/-- The first record of the two-record counterexample run (vehicle pool
of size one, all draws as in exRands). -/
def cexRec0 : TelemetryRecord :=
  generate_telemetry_record (chosenVid exRands 1 0) 0 (285383/10000) (-813792/10000)
    (stepOdos exRands 1 0 (initOdos exRands) (chosenVid exRands 1 0)) exRands 0

/-- The second record of the two-record counterexample run. -/
def cexRec1 : TelemetryRecord :=
  generate_telemetry_record (chosenVid exRands 1 1) 1 (285383/10000) (-813792/10000)
    (stepOdos exRands 1 1 (stepOdos exRands 1 0 (initOdos exRands)) (chosenVid exRands 1 1))
    exRands 1

/-- The head of a nonempty list obtained through getD is a member. -/
theorem getD_zero_mem {α : Type} (l : List α) (d : α) (h : l ≠ []) : l.getD 0 d ∈ l := by
  cases l with
  | nil => exact absurd rfl h
  | cons a t => simp

/-! ## Claim C1 -/

/-- C1 (amended): in every successful generation run under valid
randomness and for every vehicle_id, each emitted odometer_km reading
for that vehicle is strictly greater than every earlier reading for the
same vehicle minus 0.5. The internal per-vehicle odometer only grows
(by random()*0.02 per sample), but the emitted value adds a fresh
random()*0.5 jitter on top of it, so the emitted sequence need not be
non-decreasing: it can drop between readings, though always by strictly
less than 0.5. -/
theorem C1_odometer_drop_lt_half (R : Rands) (hR : R.Valid) (nR nV ts0 : ℤ)
    (l : List TelemetryRecord)
    (h : generate_csv_records nR nV ts0 R = Except.ok l) (vid : String) :
    List.Pairwise (fun a b => a - 1/2 < b) (odosFor vid l) :=
  genAux_odo_pairwise R hR nV.toNat (285383/10000) (-813792/10000) ts0
    nR.toNat 0 (initOdos R) l h vid

/-- Witness for C1 (amended): the bound applied to a concrete two-record
run in which the single vehicle is sampled twice. -/
theorem C1_odometer_drop_lt_half_witness :
    List.Pairwise (fun (a b : ℚ) => a - 1/2 < b)
      (odosFor "VEH-001" (recsOf (generate_csv_records 2 1 0 exRands))) :=
  C1_odometer_drop_lt_half exRands exRands_valid 2 1 0
    (recsOf (generate_csv_records 2 1 0 exRands)) rfl "VEH-001"

/-- Counterexample to C1 as stated: under the valid random stream
exRands (odometer jitter 0.9 on the first draw, then 0), VEH-001's
emitted odometer readings are 50000.45 followed by 50000 — strictly
decreasing, so they are not non-decreasing in emission order. -/
theorem C1_counterexample :
    exRands.Valid ∧
      ¬ List.Pairwise (fun (a b : ℚ) => a ≤ b)
        (odosFor "VEH-001" (recsOf (generate_csv_records 2 1 0 exRands))) := by
  refine ⟨exRands_valid, ?_⟩
  intro hp
  have hrun : recsOf (generate_csv_records 2 1 0 exRands) = [cexRec0, cexRec1] := rfl
  have hfil : odosFor "VEH-001" [cexRec0, cexRec1] =
      [cexRec0.odometer_km, cexRec1.odometer_km] := rfl
  rw [hrun, hfil, List.pairwise_cons] at hp
  have hle := hp.1 cexRec1.odometer_km (by simp)
  have hlt : cexRec1.odometer_km < cexRec0.odometer_km := by
    norm_num [cexRec0, cexRec1, generate_telemetry_record, stepOdos, initOdos,
      chosenVid, exRands, vehiclesList]
  exact absurd hle (not_le.mpr hlt)

/-! ## Claim C2 -/

/-- C2 (amended): generate_csv performs no argument validation. A
negative count makes range(num_records) empty, so generation succeeds
with zero records; a non-positive vehicle count empties the pool, which
fails only when at least one record must be drawn — and then with
IndexError from random.choice on the empty list. No InvalidArgument
error exists anywhere in the code. -/
theorem C2_no_validation (nR nV ts0 : ℤ) (R : Rands) :
    (nR < 0 → generate_csv_records nR nV ts0 R = Except.ok []) ∧
    (nV ≤ 0 → 0 < nR →
      generate_csv_records nR nV ts0 R = Except.error GenError.indexError) ∧
    (nV ≤ 0 → nR ≤ 0 → generate_csv_records nR nV ts0 R = Except.ok []) := by
  refine ⟨?_, ?_, ?_⟩
  · intro h
    unfold generate_csv_records
    rw [show nR.toNat = 0 by omega]
    rfl
  · intro hv hr
    unfold generate_csv_records
    obtain ⟨f, hf⟩ : ∃ f, nR.toNat = f + 1 := ⟨nR.toNat - 1, by omega⟩
    rw [hf, show nV.toNat = 0 by omega]
    conv_lhs => rw [genAux]
    rw [if_pos rfl]
  · intro hv hr
    unfold generate_csv_records
    rw [show nR.toNat = 0 by omega]
    rfl

/-- Witness for C2 (amended) at concrete arguments. -/
theorem C2_no_validation_witness :
    generate_csv_records (-2) 3 0 exRands = Except.ok [] ∧
    generate_csv_records 4 (-1) 0 exRands = Except.error GenError.indexError :=
  ⟨(C2_no_validation (-2) 3 0 exRands).1 (by norm_num),
   (C2_no_validation 4 (-1) 0 exRands).2.1 (by norm_num) (by norm_num)⟩

/-- Counterexample to C2 as stated: count -1 succeeds with zero records
(no error at all), and vehicle count 0 with one requested record fails
with IndexError — in neither case an InvalidArgument failure. -/
theorem C2_counterexample :
    generate_csv_records (-1) 5 0 exRands = Except.ok [] ∧
    generate_csv_records 1 0 0 exRands = Except.error GenError.indexError :=
  ⟨rfl, rfl⟩

/-! ## Claim C4 -/

/-- C4 (confirmed): in every successful run the record at index k
carries timestamp ts0 + k — the declared base time plus exactly k
seconds — so timestamps are strictly increasing across the whole
sequence regardless of vehicle. -/
theorem C4_timestamps (R : Rands) (nR nV ts0 : ℤ) (l : List TelemetryRecord)
    (h : generate_csv_records nR nV ts0 R = Except.ok l) :
    (∀ k, k < l.length → (l.getD k blankRecord).timestamp = ts0 + (k : ℕ)) ∧
    (∀ j k, j < k → k < l.length →
      (l.getD j blankRecord).timestamp < (l.getD k blankRecord).timestamp) := by
  obtain ⟨hlen, hts⟩ := genAux_ok_shape R nV.toNat (285383/10000) (-813792/10000)
    ts0 nR.toNat 0 (initOdos R) l h
  constructor
  · intro k hk
    have := hts k hk
    simpa using this
  · intro j k hj hk
    have h1 := hts j (lt_trans hj hk)
    have h2 := hts k hk
    rw [h1, h2]
    omega

/-- Witness for C4 on a concrete two-record run starting at time 5. -/
theorem C4_timestamps_witness :
    ((recsOf (generate_csv_records 2 1 5 exRands)).getD 1 blankRecord).timestamp =
      5 + ((1 : ℕ) : ℤ) ∧
    ((recsOf (generate_csv_records 2 1 5 exRands)).getD 0 blankRecord).timestamp <
      ((recsOf (generate_csv_records 2 1 5 exRands)).getD 1 blankRecord).timestamp :=
  ⟨(C4_timestamps exRands 2 1 5 (recsOf (generate_csv_records 2 1 5 exRands)) rfl).1
      1 (by decide),
   (C4_timestamps exRands 2 1 5 (recsOf (generate_csv_records 2 1 5 exRands)) rfl).2
      0 1 (by decide) (by decide)⟩

/-! ## Claim C9 -/

/-- C9 (amended): engine_rpm is 800 + randint(0, 5200), and Python's
randint is inclusive on both ends, so every generated record satisfies
800 ≤ engine_rpm ≤ 6000 — a closed interval with 6000 attainable,
rather than the claimed half-open interval [800, 6000). -/
theorem C9_engine_rpm_range (R : Rands) (hR : R.Valid) (nR nV ts0 : ℤ)
    (l : List TelemetryRecord)
    (h : generate_csv_records nR nV ts0 R = Except.ok l) :
    ∀ r ∈ l, 800 ≤ r.engine_rpm ∧ r.engine_rpm ≤ 6000 :=
  genAux_rpm_bounds R hR nV.toNat (285383/10000) (-813792/10000) ts0
    nR.toNat 0 (initOdos R) l h

/-- Witness for C9 (amended) on a concrete one-record run. -/
theorem C9_engine_rpm_range_witness :
    800 ≤ ((recsOf (generate_csv_records 1 1 0 exRands)).getD 0 blankRecord).engine_rpm ∧
    ((recsOf (generate_csv_records 1 1 0 exRands)).getD 0 blankRecord).engine_rpm ≤ 6000 := by
  have hlen : (recsOf (generate_csv_records 1 1 0 exRands)).length = 1 := rfl
  have hne : recsOf (generate_csv_records 1 1 0 exRands) ≠ [] := by
    intro hnil
    rw [hnil] at hlen
    simp at hlen
  exact C9_engine_rpm_range exRands exRands_valid 1 1 0
    (recsOf (generate_csv_records 1 1 0 exRands)) rfl
    ((recsOf (generate_csv_records 1 1 0 exRands)).getD 0 blankRecord)
    (getD_zero_mem _ blankRecord hne)

/-- Counterexample to C9 as stated: with the valid maximal randint draw
5200, the generated record's engine_rpm is exactly 6000, violating the
claimed strict bound engine_rpm < 6000. -/
theorem C9_counterexample :
    exRands.Valid ∧
      ¬ ∀ r ∈ recsOf (generate_csv_records 1 1 0 exRands), r.engine_rpm < 6000 := by
  refine ⟨exRands_valid, ?_⟩
  intro hall
  have hlen : (recsOf (generate_csv_records 1 1 0 exRands)).length = 1 := rfl
  have hne : recsOf (generate_csv_records 1 1 0 exRands) ≠ [] := by
    intro hnil
    rw [hnil] at hlen
    simp at hlen
  have h2 := hall _ (getD_zero_mem _ blankRecord hne)
  have h3 : ((recsOf (generate_csv_records 1 1 0 exRands)).getD 0 blankRecord).engine_rpm
      = 6000 := rfl
  omega

/-! ## Claim C3 -/

/-- The record a compliant delimited reader recovers from a written row:
string columns exact, engine_rpm exact, floating columns equal to the
originals rounded to the written precision. -/
def roundTripRecord (r : TelemetryRecord) : FullRecord :=
  { vehicle_id := some r.vehicle_id, timestamp := some (printIntStr r.timestamp),
    latitude := roundTo 6 r.latitude, longitude := roundTo 6 r.longitude,
    speed := roundTo 2 r.speed, heading := roundTo 2 r.heading,
    engine_rpm := (r.engine_rpm : ℤ), fuel_level := roundTo 2 r.fuel_level,
    odometer_km := roundTo 2 r.odometer_km, engine_temp := roundTo 2 r.engine_temp,
    battery_volt := roundTo 2 r.battery_volt, diagnostic_code := some r.diagnostic_code }

theorem parseRowFull_recordToRow (r : TelemetryRecord) :
    parseRowFull csvHeader (recordToRow r) = some (roundTripRecord r) := by
  have hv : cellStr csvHeader (recordToRow r) "vehicle_id" =
      some (some r.vehicle_id) := rfl
  have hts : cellStr csvHeader (recordToRow r) "timestamp" =
      some (some (printIntStr r.timestamp)) := rfl
  have hdi : cellStr csvHeader (recordToRow r) "diagnostic_code" =
      some (some r.diagnostic_code) := rfl
  have hla : cellFloat csvHeader (recordToRow r) "latitude" =
      some (roundTo 6 r.latitude) := by
    have h1 : cellFloat csvHeader (recordToRow r) "latitude" =
        parseFloat (formatFixed r.latitude 6) := rfl
    rw [h1, parseFloat_formatFixed r.latitude (by norm_num)]
  have hlo : cellFloat csvHeader (recordToRow r) "longitude" =
      some (roundTo 6 r.longitude) := by
    have h1 : cellFloat csvHeader (recordToRow r) "longitude" =
        parseFloat (formatFixed r.longitude 6) := rfl
    rw [h1, parseFloat_formatFixed r.longitude (by norm_num)]
  have hsp : cellFloat csvHeader (recordToRow r) "speed" =
      some (roundTo 2 r.speed) := by
    have h1 : cellFloat csvHeader (recordToRow r) "speed" =
        parseFloat (formatFixed r.speed 2) := rfl
    rw [h1, parseFloat_formatFixed r.speed (by norm_num)]
  have hhe : cellFloat csvHeader (recordToRow r) "heading" =
      some (roundTo 2 r.heading) := by
    have h1 : cellFloat csvHeader (recordToRow r) "heading" =
        parseFloat (formatFixed r.heading 2) := rfl
    rw [h1, parseFloat_formatFixed r.heading (by norm_num)]
  have hrp : cellInt csvHeader (recordToRow r) "engine_rpm" =
      some ((r.engine_rpm : ℤ)) := by
    have h1 : cellInt csvHeader (recordToRow r) "engine_rpm" =
        parseInt (printNat r.engine_rpm) := rfl
    rw [h1, parseInt_printNat]
  have hfu : cellFloat csvHeader (recordToRow r) "fuel_level" =
      some (roundTo 2 r.fuel_level) := by
    have h1 : cellFloat csvHeader (recordToRow r) "fuel_level" =
        parseFloat (formatFixed r.fuel_level 2) := rfl
    rw [h1, parseFloat_formatFixed r.fuel_level (by norm_num)]
  have hod : cellFloat csvHeader (recordToRow r) "odometer_km" =
      some (roundTo 2 r.odometer_km) := by
    have h1 : cellFloat csvHeader (recordToRow r) "odometer_km" =
        parseFloat (formatFixed r.odometer_km 2) := rfl
    rw [h1, parseFloat_formatFixed r.odometer_km (by norm_num)]
  have hte : cellFloat csvHeader (recordToRow r) "engine_temp" =
      some (roundTo 2 r.engine_temp) := by
    have h1 : cellFloat csvHeader (recordToRow r) "engine_temp" =
        parseFloat (formatFixed r.engine_temp 2) := rfl
    rw [h1, parseFloat_formatFixed r.engine_temp (by norm_num)]
  have hba : cellFloat csvHeader (recordToRow r) "battery_volt" =
      some (roundTo 2 r.battery_volt) := by
    have h1 : cellFloat csvHeader (recordToRow r) "battery_volt" =
        parseFloat (formatFixed r.battery_volt 2) := rfl
    rw [h1, parseFloat_formatFixed r.battery_volt (by norm_num)]
  unfold parseRowFull
  rw [hv, hts, hla, hlo, hsp, hhe, hrp, hfu, hod, hte, hba, hdi]
  rfl

/-- C3 (confirmed): writing any record sequence with the delimited-table
writer and re-reading the rows with the repository's own full delimited
reader (benchmark_python_parser, which converts all twelve columns)
yields exactly as many records as were written, with vehicle_id,
engine_rpm (as integer) and diagnostic_code preserved exactly and every
floating-point field equal to the original rounded to the written
precision: 6 decimal digits for latitude/longitude, 2 for the others.
The csv line encode/decode layer (csv.writer and csv.DictReader) is
stdlib code that is exact on these rows, so the reader is modelled as
consuming the writer's field lists. -/
theorem C3_roundtrip (records : List TelemetryRecord) :
    parseAllFull csvHeader (records.map recordToRow) =
      some (records.map roundTripRecord) ∧
    (records.map roundTripRecord).length = records.length := by
  constructor
  · induction records with
    | nil => rfl
    | cons r rest ih =>
      rw [List.map_cons, List.map_cons]
      conv_lhs => rw [parseAllFull]
      rw [if_neg (by simp [recordToRow]), parseRowFull_recordToRow, ih]
      rfl
  · simp

/-! ## Claim C5 support -/

theorem formatFixed_chars (q : ℚ) (d : ℕ) :
    ∀ c ∈ formatFixed q d, isDigitC c = true ∨ c = '-' ∨ c = '.' := by
  intro c hc
  unfold formatFixed at hc
  rw [List.mem_append, List.mem_append] at hc
  rcases hc with (hc | hc) | hc
  · by_cases hn : round (q * 10 ^ d) < 0
    · rw [if_pos hn] at hc
      simp at hc
      exact Or.inr (Or.inl hc)
    · rw [if_neg hn] at hc
      simp at hc
  · exact Or.inl (printNat_all_digit _ c hc)
  · rcases List.mem_cons.mp hc with hc | hc
    · exact Or.inr (Or.inr hc)
    · exact Or.inl (fracDigits_all_digit _ _ c hc)

theorem printInt_chars (z : ℤ) :
    ∀ c ∈ printInt z, isDigitC c = true ∨ c = '-' := by
  intro c hc
  unfold printInt at hc
  by_cases hn : z < 0
  · rw [if_pos hn] at hc
    rcases List.mem_cons.mp hc with hc | hc
    · exact Or.inr hc
    · exact Or.inl (printNat_all_digit _ c hc)
  · rw [if_neg hn] at hc
    exact Or.inl (printNat_all_digit _ c hc)

theorem special_false_of_digit {c : Char} (h : isDigitC c = true) :
    (c == ',' || c == '"' || c == '\n' || c == '\r') = false := by
  have h1 : c ≠ ',' := by rintro rfl; simp [isDigitC] at h
  have h2 : c ≠ '"' := by rintro rfl; simp [isDigitC] at h
  have h3 : c ≠ '\n' := by rintro rfl; simp [isDigitC] at h
  have h4 : c ≠ '\r' := by rintro rfl; simp [isDigitC] at h
  simp [h1, h2, h3, h4]

theorem needsQuote_formatFixedStr (q : ℚ) (d : ℕ) :
    needsQuote (formatFixedStr q d) = false := by
  unfold needsQuote formatFixedStr
  rw [show (String.mk (formatFixed q d)).toList = formatFixed q d from rfl,
    List.any_eq_false]
  intro c hc
  rcases formatFixed_chars q d c hc with h | h | h
  · simp [special_false_of_digit h]
  · subst h; decide
  · subst h; decide

theorem needsQuote_printIntStr (z : ℤ) : needsQuote (printIntStr z) = false := by
  unfold needsQuote printIntStr
  rw [show (String.mk (printInt z)).toList = printInt z from rfl, List.any_eq_false]
  intro c hc
  rcases printInt_chars z c hc with h | h
  · simp [special_false_of_digit h]
  · subst h; decide

theorem needsQuote_printNatStr (n : ℕ) : needsQuote (printNatStr n) = false := by
  unfold needsQuote printNatStr
  rw [show (String.mk (printNat n)).toList = printNat n from rfl, List.any_eq_false]
  intro c hc
  simp [special_false_of_digit (printNat_all_digit n c hc)]

theorem encodeField_eq_self {s : String} (h : needsQuote s = false) :
    encodeField s = s := by
  unfold encodeField
  rw [h]
  rfl

theorem renderRow_eq_intercalate (row : List String)
    (h : ∀ s ∈ row, needsQuote s = false) :
    renderRow row = String.intercalate "," row := by
  unfold renderRow
  have heq : row.map encodeField = row.map id :=
    List.map_congr_left (fun s hs => by rw [encodeField_eq_self (h s hs)]; rfl)
  rw [heq, List.map_id]

/-- The number of characters after the final decimal point of a string,
none when the string holds no point. -/
def decimalsOf (s : String) : Option ℕ :=
  if (s.toList.reverse.takeWhile (fun c => c != '.')).length = s.toList.length then none
  else some (s.toList.reverse.takeWhile (fun c => c != '.')).length

theorem decimalsOf_formatFixedStr (q : ℚ) (d : ℕ) :
    decimalsOf (formatFixedStr q d) = some d := by
  have hmod : (round (q * 10 ^ d)).natAbs % 10 ^ d < 10 ^ d :=
    Nat.mod_lt _ (by positivity)
  have hlen := fracDigits_length hmod
  have hfd : ∀ c ∈ (fracDigits d ((round (q * 10 ^ d)).natAbs % 10 ^ d)).reverse,
      (c != '.') = true := by
    intro c hc
    rw [List.mem_reverse] at hc
    simp only [bne_iff_ne, ne_eq]
    exact isDigitC_ne_dot (fracDigits_all_digit _ _ c hc)
  have hrev : (formatFixed q d).reverse =
      (fracDigits d ((round (q * 10 ^ d)).natAbs % 10 ^ d)).reverse ++ '.' ::
        ((printNat ((round (q * 10 ^ d)).natAbs / 10 ^ d)).reverse ++
          (if round (q * 10 ^ d) < 0 then ['-'] else []).reverse) := by
    unfold formatFixed
    simp [List.reverse_append, List.reverse_cons, List.append_assoc,
      List.singleton_append]
  have htake := takeWhile_append_cons
    (fracDigits d ((round (q * 10 ^ d)).natAbs % 10 ^ d)).reverse '.'
    ((printNat ((round (q * 10 ^ d)).natAbs / 10 ^ d)).reverse ++
      (if round (q * 10 ^ d) < 0 then ['-'] else []).reverse) hfd (by decide)
  have htoList : (formatFixedStr q d).toList = formatFixed q d := rfl
  unfold decimalsOf
  rw [htoList, hrev, htake, List.length_reverse, hlen]
  have hWlen : 0 < (printNat ((round (q * 10 ^ d)).natAbs / 10 ^ d)).length := by
    cases hpn : printNat ((round (q * 10 ^ d)).natAbs / 10 ^ d) with
    | nil => exact absurd hpn (printNat_ne_nil _)
    | cons a t => simp
  have hflen : (formatFixed q d).length =
      ((formatFixed q d).reverse).length := (List.length_reverse _).symm
  rw [if_neg]
  rw [hflen, hrev]
  simp only [List.length_append, List.length_cons, List.length_reverse, hlen]
  omega

/-! ## Claim C5 -/

set_option maxHeartbeats 2000000 in
theorem renderRow_csvHeader :
    renderRow csvHeader = "vehicle_id,timestamp,latitude,longitude,speed,heading,engine_rpm,fuel_level,odometer_km,engine_temp,battery_volt,diagnostic_code" := by
  decide

set_option maxHeartbeats 1000000 in
/-- C5 (amended): the delimited-table writer emits one header line
naming the twelve fields in the data-model order, then exactly one line
per record. In every data line latitude and longitude carry exactly 6
digits after the decimal point, every other floating field exactly 2,
and engine_rpm is a plain digit string. String fields are emitted
verbatim — with fields joined by bare commas and no quoting — provided
they contain no delimiter, quote or line-break character; a field
containing one of those is minimally quoted by the underlying csv
writer (see the counterexample), which is the only departure from the
claim as stated. -/
theorem C5_line_format (records : List TelemetryRecord)
    (hclean : ∀ r ∈ records,
      needsQuote r.vehicle_id = false ∧ needsQuote r.diagnostic_code = false) :
    csvLines records =
      "vehicle_id,timestamp,latitude,longitude,speed,heading,engine_rpm,fuel_level,odometer_km,engine_temp,battery_volt,diagnostic_code" ::
        records.map (fun r => String.intercalate "," (recordToRow r)) ∧
    ∀ r ∈ records,
      (recordToRow r).length = 12 ∧
      (recordToRow r)[0]? = some r.vehicle_id ∧
      (recordToRow r)[11]? = some r.diagnostic_code ∧
      (recordToRow r)[2]? = some (formatFixedStr r.latitude 6) ∧
      (recordToRow r)[3]? = some (formatFixedStr r.longitude 6) ∧
      (recordToRow r)[4]? = some (formatFixedStr r.speed 2) ∧
      (recordToRow r)[5]? = some (formatFixedStr r.heading 2) ∧
      (recordToRow r)[6]? = some (printNatStr r.engine_rpm) ∧
      (recordToRow r)[7]? = some (formatFixedStr r.fuel_level 2) ∧
      (recordToRow r)[8]? = some (formatFixedStr r.odometer_km 2) ∧
      (recordToRow r)[9]? = some (formatFixedStr r.engine_temp 2) ∧
      (recordToRow r)[10]? = some (formatFixedStr r.battery_volt 2) ∧
      decimalsOf (formatFixedStr r.latitude 6) = some 6 ∧
      decimalsOf (formatFixedStr r.longitude 6) = some 6 ∧
      decimalsOf (formatFixedStr r.speed 2) = some 2 ∧
      decimalsOf (formatFixedStr r.heading 2) = some 2 ∧
      decimalsOf (formatFixedStr r.fuel_level 2) = some 2 ∧
      decimalsOf (formatFixedStr r.odometer_km 2) = some 2 ∧
      decimalsOf (formatFixedStr r.engine_temp 2) = some 2 ∧
      decimalsOf (formatFixedStr r.battery_volt 2) = some 2 ∧
      (printNat r.engine_rpm).all isDigitC = true := by
  constructor
  · have hmap : records.map (fun r => renderRow (recordToRow r)) =
        records.map (fun r => String.intercalate "," (recordToRow r)) := by
      apply List.map_congr_left
      intro r hr
      apply renderRow_eq_intercalate
      intro s hs
      unfold recordToRow at hs
      simp only [List.mem_cons, List.not_mem_nil, or_false] at hs
      rcases hs with hs | hs | hs | hs | hs | hs | hs | hs | hs | hs | hs | hs
      · rw [hs]; exact (hclean r hr).1
      · rw [hs]; exact needsQuote_printIntStr r.timestamp
      · rw [hs]; exact needsQuote_formatFixedStr r.latitude 6
      · rw [hs]; exact needsQuote_formatFixedStr r.longitude 6
      · rw [hs]; exact needsQuote_formatFixedStr r.speed 2
      · rw [hs]; exact needsQuote_formatFixedStr r.heading 2
      · rw [hs]; exact needsQuote_printNatStr r.engine_rpm
      · rw [hs]; exact needsQuote_formatFixedStr r.fuel_level 2
      · rw [hs]; exact needsQuote_formatFixedStr r.odometer_km 2
      · rw [hs]; exact needsQuote_formatFixedStr r.engine_temp 2
      · rw [hs]; exact needsQuote_formatFixedStr r.battery_volt 2
      · rw [hs]; exact (hclean r hr).2
    show renderRow csvHeader :: records.map (fun r => renderRow (recordToRow r)) = _
    rw [renderRow_csvHeader, hmap]
  · intro r hr
    refine ⟨rfl, rfl, rfl, rfl, rfl, rfl, rfl, rfl, rfl, rfl, rfl, rfl,
      decimalsOf_formatFixedStr r.latitude 6, decimalsOf_formatFixedStr r.longitude 6,
      decimalsOf_formatFixedStr r.speed 2, decimalsOf_formatFixedStr r.heading 2,
      decimalsOf_formatFixedStr r.fuel_level 2, decimalsOf_formatFixedStr r.odometer_km 2,
      decimalsOf_formatFixedStr r.engine_temp 2, decimalsOf_formatFixedStr r.battery_volt 2,
      ?_⟩
    rw [List.all_eq_true]
    exact printNat_all_digit r.engine_rpm

/-- A record with all-zero numeric fields and delimiter-free strings. -/
def okRecord : TelemetryRecord :=
  { vehicle_id := "VEH-001", timestamp := 0, latitude := 0, longitude := 0, speed := 0,
    heading := 0, engine_rpm := 0, fuel_level := 0, odometer_km := 0,
    engine_temp := 0, battery_volt := 0, diagnostic_code := "P0420" }

/-- Witness for C5 (amended) on a concrete clean record: the file is the
header line plus the verbatim comma-join of the record's fields. -/
theorem C5_line_format_witness :
    csvLines [okRecord] =
      "vehicle_id,timestamp,latitude,longitude,speed,heading,engine_rpm,fuel_level,odometer_km,engine_temp,battery_volt,diagnostic_code" ::
        [okRecord].map (fun r => String.intercalate "," (recordToRow r)) :=
  (C5_line_format [okRecord] (by decide)).1

/-- A record whose diagnostic_code contains the delimiter. -/
def badDiagRecord : TelemetryRecord :=
  { vehicle_id := "VEH-001", timestamp := 0, latitude := 0, longitude := 0, speed := 0,
    heading := 0, engine_rpm := 0, fuel_level := 0, odometer_km := 0,
    engine_temp := 0, battery_volt := 0, diagnostic_code := "P0420,X" }

set_option maxHeartbeats 2000000 in
/-- Counterexample to C5 as stated: for a record whose diagnostic_code
contains a comma, the emitted line is not the verbatim comma-join of the
fields — csv.writer quotes the field — so string fields are not always
emitted with no escaping. -/
theorem C5_counterexample :
    renderRow (recordToRow badDiagRecord) ≠
      String.intercalate "," (recordToRow badDiagRecord) := by
  have hz6 : formatFixedStr (0:ℚ) 6 = "0.000000" := by
    unfold formatFixedStr formatFixed
    rw [show round ((0:ℚ) * 10 ^ 6) = 0 by simp]
    rfl
  have hz2 : formatFixedStr (0:ℚ) 2 = "0.00" := by
    unfold formatFixedStr formatFixed
    rw [show round ((0:ℚ) * 10 ^ 2) = 0 by simp]
    rfl
  have hrow : recordToRow badDiagRecord =
      ["VEH-001", "0", "0.000000", "0.000000", "0.00", "0.00", "0", "0.00", "0.00",
       "0.00", "0.00", "P0420,X"] := by
    simp only [recordToRow, badDiagRecord]
    rw [hz6, hz2]
    rfl
  rw [hrow]
  decide

/-! ## Claim C6 -/

/-- C6 (confirmed): if any non-blank data row fails to parse — an
expected column absent from the header, an expected cell missing from
the row, or an unparsable numeric value — parse_telemetry aborts the
whole parse and produces no result, rather than skipping the row and
returning a partial result. -/
theorem C6_abort_on_malformed (header : List String) (rows : List (List String))
    (row : List String) (hmem : row ∈ rows) (hne : row ≠ [])
    (hbad : parseRowBench header row = none) :
    parseAllBench header rows = none := by
  induction rows with
  | nil => exact absurd hmem (List.not_mem_nil row)
  | cons r rest ih =>
    rcases List.mem_cons.mp hmem with heq | hmem2
    · subst heq
      conv_lhs => rw [parseAllBench]
      rw [if_neg hne, hbad]
      rfl
    · conv_lhs => rw [parseAllBench]
      by_cases hr : r = []
      · rw [if_pos hr]
        exact ih hmem2
      · rw [if_neg hr, ih hmem2]
        cases parseRowBench header r <;> rfl

/-- A data row whose latitude cell is not numeric. -/
def badRow : List String :=
  ["VEH-007", "2024-01-01T00:00:00", "not-a-number", "1.5", "2.5", "3.5",
   "100", "50.5", "1.0", "90.0", "12.5", ""]

/-- Witness for C6: one malformed row aborts the whole parse. -/
theorem C6_abort_on_malformed_witness :
    parseAllBench csvHeader [badRow] = none :=
  C6_abort_on_malformed csvHeader [badRow] badRow (List.mem_singleton.mpr rfl)
    (by decide) rfl

/-! ## Claim C7 -/

/-- C7 (confirmed): invoked with a file-path argument the CLI prints one
JSON object whose keys are exactly parser, records_parsed, time_ms and
records_per_sec (whenever the parse itself succeeds; a malformed file
aborts with no output, per C6), exiting normally; invoked with no path
it prints the object with the single key error valued "No file
provided" and exits with status 1, which is non-zero. -/
theorem C7_cli_contract (argv header : List String) (rows : List (List String))
    (e : ℚ) (recs : List BenchRecord) :
    (2 ≤ argv.length → parseAllBench header rows = some recs →
      cliMain argv header rows e = some (benchResultObj recs.length e, 0) ∧
      (benchResultObj recs.length e).map Prod.fst =
        ["parser", "records_parsed", "time_ms", "records_per_sec"]) ∧
    (argv.length < 2 →
      cliMain argv header rows e =
        some ([("error", JsonVal.str "No file provided")], 1) ∧ (1 : ℕ) ≠ 0) := by
  constructor
  · intro h2 hp
    constructor
    · unfold cliMain
      rw [if_neg (by omega), hp]
      rfl
    · rfl
  · intro h2
    constructor
    · unfold cliMain
      rw [if_pos h2]
    · norm_num

/-- Witness for C7 at concrete inputs: a two-element argv over an empty
data section, and a one-element argv. -/
theorem C7_cli_contract_witness :
    cliMain ["benchmark_parser.py", "telemetry.csv"] csvHeader [] 1 =
      some (benchResultObj 0 1, 0) ∧
    cliMain ["benchmark_parser.py"] csvHeader [] 1 =
      some ([("error", JsonVal.str "No file provided")], 1) :=
  ⟨((C7_cli_contract ["benchmark_parser.py", "telemetry.csv"] csvHeader [] 1 []).1
      (by norm_num) rfl).1,
   ((C7_cli_contract ["benchmark_parser.py"] csvHeader [] 1 []).2 (by norm_num)).1⟩

/-! ## Claim C8 -/

/-- C8 (confirmed): with a zero record count every writer emits a
header-only or empty-body output — the CSV file is exactly its header
line, the JSON document is the empty array, the log file is exactly its
two comment lines — and the benchmark of such a file reports
records_parsed = 0 and records_per_sec = 0, performing its division
only under the elapsed_ms > 0 guard, whose divisor elapsed_ms / 1000 is
nonzero whenever that branch is taken. -/
theorem C8_empty_run (nV ts0 : ℤ) (R : Rands) (e : ℚ) :
    generate_csv_lines 0 nV ts0 R = Except.ok [renderRow csvHeader] ∧
    generate_json_doc 0 nV ts0 R = Except.ok (JsonVal.arr []) ∧
    generate_log_lines 0 nV ts0 R = Except.ok logHeader ∧
    parseAllBench csvHeader [] = some [] ∧
    benchResultObj 0 e =
      [("parser", JsonVal.str "Python"), ("records_parsed", JsonVal.int 0),
       ("time_ms", JsonVal.num (roundTo 2 e)), ("records_per_sec", JsonVal.int 0)] ∧
    (0 < e → e / 1000 ≠ 0) := by
  refine ⟨rfl, rfl, rfl, rfl, ?_, ?_⟩
  · have h1 : recordsPerSec 0 e = 0 := by
      unfold recordsPerSec
      split_ifs with hs
      · norm_num
      · rfl
    unfold benchResultObj
    rw [h1]
    norm_num
  · intro he
    exact ne_of_gt (by positivity)

/-- Witness for C8 at concrete inputs. -/
theorem C8_empty_run_witness :
    generate_csv_lines 0 7 0 exRands = Except.ok [renderRow csvHeader] ∧
    ((2:ℚ) / 1000 ≠ 0) :=
  ⟨(C8_empty_run 7 0 exRands 2).1,
   (C8_empty_run 7 0 exRands 2).2.2.2.2.2 (by norm_num)⟩

/-! ## Claim C10 -/

theorem parseRowBench_congr (r1 r2 : List String)
    (h : cellStr csvHeader r1 "vehicle_id" = cellStr csvHeader r2 "vehicle_id" ∧
      cellFloat csvHeader r1 "latitude" = cellFloat csvHeader r2 "latitude" ∧
      cellFloat csvHeader r1 "longitude" = cellFloat csvHeader r2 "longitude" ∧
      cellFloat csvHeader r1 "speed" = cellFloat csvHeader r2 "speed" ∧
      cellInt csvHeader r1 "engine_rpm" = cellInt csvHeader r2 "engine_rpm" ∧
      cellFloat csvHeader r1 "fuel_level" = cellFloat csvHeader r2 "fuel_level") :
    parseRowBench csvHeader r1 = parseRowBench csvHeader r2 := by
  obtain ⟨h1, h2, h3, h4, h5, h6⟩ := h
  unfold parseRowBench
  rw [h1, h2, h3, h4, h5, h6]

/-- C10 (confirmed): the benchmark parser's result depends only on the
vehicle_id, latitude, longitude, speed, engine_rpm and fuel_level
columns. For two files with the standard header whose rows pairwise
agree on those six columns (as DictReader cells), the parses are equal
— same success or failure, same records_parsed, same parsed values — so
malformed content confined to the other six columns can never change
the outcome or cause a failure. -/
theorem C10_six_column_dependence (rows1 rows2 : List (List String))
    (hagree : List.Forall₂ (fun r1 r2 =>
      cellStr csvHeader r1 "vehicle_id" = cellStr csvHeader r2 "vehicle_id" ∧
      cellFloat csvHeader r1 "latitude" = cellFloat csvHeader r2 "latitude" ∧
      cellFloat csvHeader r1 "longitude" = cellFloat csvHeader r2 "longitude" ∧
      cellFloat csvHeader r1 "speed" = cellFloat csvHeader r2 "speed" ∧
      cellInt csvHeader r1 "engine_rpm" = cellInt csvHeader r2 "engine_rpm" ∧
      cellFloat csvHeader r1 "fuel_level" = cellFloat csvHeader r2 "fuel_level")
      rows1 rows2) :
    parseAllBench csvHeader rows1 = parseAllBench csvHeader rows2 := by
  induction hagree with
  | nil => rfl
  | @cons a b l1 l2 hpair hrest ih =>
    have hempty : (a = []) ↔ (b = []) := by
      have hv := hpair.1
      have e1 : cellStr csvHeader a "vehicle_id" = some a[0]? := rfl
      have e2 : cellStr csvHeader b "vehicle_id" = some b[0]? := rfl
      rw [e1, e2] at hv
      have hv2 := Option.some.inj hv
      constructor
      · intro ha
        subst ha
        cases b with
        | nil => rfl
        | cons x t => simp at hv2
      · intro hb
        subst hb
        cases a with
        | nil => rfl
        | cons x t => simp at hv2
    conv_lhs => rw [parseAllBench]
    conv_rhs => rw [parseAllBench]
    by_cases ha : a = []
    · rw [if_pos ha, if_pos (hempty.mp ha)]
      exact ih
    · rw [if_neg ha, if_neg (fun hb => ha (hempty.mpr hb))]
      rw [parseRowBench_congr a b hpair, ih]

/-- A well-formed row with junk in the non-parsed columns. -/
def junkRow1 : List String :=
  ["VEH-001", "JUNKSTAMP", "1.5", "2.5", "3.5", "NOT_A_HEADING",
   "100", "50.5", "%%%", "@@", "!!", "??"]

/-- The same six parsed columns as junkRow1, different junk elsewhere. -/
def junkRow2 : List String :=
  ["VEH-001", "OTHERJUNK", "1.5", "2.5", "3.5", "zzz",
   "100", "50.5", "###", "^^", "&&", "++"]

/-- Witness for C10: two files agreeing only on the six parsed columns
parse identically, junk timestamps and headings notwithstanding. -/
theorem C10_six_column_dependence_witness :
    parseAllBench csvHeader [junkRow1] = parseAllBench csvHeader [junkRow2] :=
  C10_six_column_dependence [junkRow1] [junkRow2]
    (List.Forall₂.cons ⟨rfl, rfl, rfl, rfl, rfl, rfl⟩ List.Forall₂.nil)

/-- Counterexample to C7 as stated: invoked with a file-path argument
on a file containing one malformed row, the utility prints no JSON
object at all — the parse aborts and the exception propagates out of
the main block (none), so the with-path half of the claim holds only
for files that parse successfully. -/
theorem C7_counterexample :
    cliMain ["benchmark_parser.py", "telemetry.csv"] csvHeader [badRow] 1 = none :=
  rfl
